import Mathlib

/-!
Shallow embedding of `src/components/static-map.js` (react-map-gl `StaticMap`):
a React component wrapping a Mapbox GL engine instance.  The component is
modelled as a pure state machine; every call the component issues to the
engine is recorded as an `EngineCall` event and every `console.error` line as
a string, so lifecycle properties become statements about the emitted traces.
-/

namespace RMG

/-- `NO_TOKEN_WARNING` constant (static-map.js line 36). -/
def NO_TOKEN_WARNING : String := "A valid API access token is required to use Mapbox data"

/-- `UNAUTHORIZED_ERROR_CODE` constant (static-map.js line 41). -/
def UNAUTHORIZED_ERROR_CODE : Int := 401

/-- A Mapbox style descriptor (`mapStyle` prop): either a style url string
(compared by value under JS `!==`, as strings are) or a structured style
object, identified by a reference id so that `DecidableEq` models JS
reference equality on objects. -/
inductive MapStyle where
  | url (s : String)
  | obj (ref : Nat)
deriving DecidableEq, Repr

/-- Modelled from the spec: `normalizeStyle` from `src/utils/style-utils`
(file not present under src/).  Per the spec (section 4.5) it passes a plain
reference string through unchanged and converts a structured style document
into the canonical plain-object form the engine consumes; in this model,
where objects are tracked by identity, both cases are the identity. -/
def normalizeStyle : MapStyle → MapStyle
  | .url s => .url s
  | .obj r => .obj r

/-- Geographic view state: the fields read by the visibility constraints and
the viewport (`longitude, latitude, zoom, bearing, pitch`).  JS numbers are
modelled as `Int`; no claim depends on fractional values. -/
structure ViewState where
  longitude : Int
  latitude : Int
  zoom : Int
  bearing : Int
  pitch : Int
deriving DecidableEq, Repr

/-- Modelled from the spec: the visibility-constraint parameters consumed by
`checkVisibilityConstraints` from `src/utils/map-constraints` (file not
present under src/).  Per the spec (section 4.4) constraints are named
thresholds (e.g. zoom and pitch ranges) evaluated conjunctively. -/
structure VisibilityConstraints where
  minZoom : Option Int
  maxZoom : Option Int
  minPitch : Option Int
  maxPitch : Option Int
deriving DecidableEq, Repr

/-- Modelled from the spec: `checkVisibilityConstraints` from
`src/utils/map-constraints` (file not present under src/).  Per the spec
(section 4.4): a pure predicate, thresholds evaluated conjunctively, and
absence of constraints means always visible. -/
def checkVisibilityConstraints (vs : ViewState) (c : Option VisibilityConstraints) : Bool :=
  match c with
  | none => true
  | some c =>
    c.minZoom.all (fun z => z ≤ vs.zoom) && c.maxZoom.all (fun z => vs.zoom ≤ z) &&
    c.minPitch.all (fun p => p ≤ vs.pitch) && c.maxPitch.all (fun p => vs.pitch ≤ p)

/-- The props of `StaticMap` that the modelled behaviour reads
(static-map.js lines 52-78).  `viewState` is `Option` because the source
tests its truthiness (`this.props.viewState || this.props`, line 235);
`style` models the caller-supplied CSS `position` value, the only field of
the style override the component inspects (lines 230-232). -/
structure Props where
  mapStyle : MapStyle
  preventStyleDiffing : Bool
  disableTokenWarning : Bool
  visible : Bool
  width : Int
  height : Int
  longitude : Int
  latitude : Int
  zoom : Int
  bearing : Int
  pitch : Int
  viewState : Option ViewState
  visibilityConstraints : Option VisibilityConstraints
  style : Option String
  hasChildren : Bool
deriving DecidableEq, Repr

/-- The component state (static-map.js lines 98-102). -/
structure CState where
  width : Int
  height : Int
  accessTokenInvalid : Bool
deriving DecidableEq, Repr

/-- A call dispatched to the engine adapter (`Mapbox` instance / raw map
handle).  Each constructor corresponds to one call site in static-map.js. -/
inductive EngineCall where
  /-- `new Mapbox({... mapStyle: normalizeStyle(mapStyle)})`, line 117. -/
  | construct (style : MapStyle)
  /-- `this._mapbox.setProps(newProps)`, line 127. -/
  | setProps
  /-- `this._map.setStyle(normalizeStyle(mapStyle), {diff})`, line 189. -/
  | setStyle (style : MapStyle) (diff : Bool)
  /-- `this._map.resize()`, line 181. -/
  | resize
  /-- `this._mapbox.finalize()`, line 136. -/
  | finalize
  /-- `this._map.queryRenderedFeatures(geometry, options)`, line 156. -/
  | queryRenderedFeatures (geometry : Nat)
deriving DecidableEq, Repr

/-- A JS runtime exception surfaced by the model (dereferencing a nulled
handle). -/
inductive JSError where
  | typeError
deriving DecidableEq, Repr

/-- The modelled component instance.  `supported` records the result of
`StaticMap.supported()` sampled in the constructor (line 92); `mapbox` and
`map` are the `this._mapbox` / `this._map` handles, `none` standing for the
JS `null`/`undefined` states before mount and after unmount. -/
structure Component where
  props : Props
  state : CState
  supported : Bool
  mapbox : Option Unit
  map : Option Unit
deriving DecidableEq, Repr

/-- `constructor(props)` (static-map.js lines 89-103): initial state is
zero size with `accessTokenInvalid: false`; the handles are unset.  When the
environment is unsupported every lifecycle hook is replaced by `noop`,
modelled here by the `supported` flag that each hook consults. -/
def construct (supported : Bool) (props : Props) : Component :=
  { props := props
    state := { width := 0, height := 0, accessTokenInvalid := false }
    supported := supported
    mapbox := none
    map := none }

/-- `componentDidMount()` (static-map.js lines 114-124): builds the `Mapbox`
adapter with the normalized style and stores both handles.  A no-op when the
environment is unsupported (line 93). -/
def componentDidMount (c : Component) : Component × List EngineCall :=
  if c.supported then
    ({ c with mapbox := some (), map := some () },
     [EngineCall.construct (normalizeStyle c.props.mapStyle)])
  else (c, [])

/-- `_updateMapStyle(oldProps, newProps)` (static-map.js lines 185-191).
`thisProps` stands for `this.props`, read for `preventStyleDiffing` at
line 189; at the only call site (line 128) it coincides with `oldProps`. -/
def updateMapStyle (thisProps oldProps newProps : Props) : List EngineCall :=
  if newProps.mapStyle ≠ oldProps.mapStyle then
    [EngineCall.setStyle (normalizeStyle newProps.mapStyle) (!thisProps.preventStyleDiffing)]
  else []

/-- `componentWillReceiveProps(newProps)` (static-map.js lines 126-129)
plus React's subsequent assignment of `this.props := newProps`.  The hook
itself is a no-op when unsupported (line 94), but the props still update. -/
def componentWillReceiveProps (c : Component) (newProps : Props) : Component × List EngineCall :=
  if c.supported then
    ({ c with props := newProps },
     EngineCall.setProps :: updateMapStyle c.props c.props newProps)
  else ({ c with props := newProps }, [])

/-- `_updateMapSize(oldProps, newProps)` (static-map.js lines 176-183):
compares width and height with `!==` and calls `resize()` when either
changed. -/
def updateMapSize (oldS newS : CState) : List EngineCall :=
  if oldS.width ≠ newS.width || oldS.height ≠ newS.height then
    [EngineCall.resize]
  else []

/-- `componentDidUpdate(prevProps, prevState)` (static-map.js lines
131-133); a no-op when unsupported (line 95). -/
def componentDidUpdate (c : Component) (prevState : CState) : List EngineCall :=
  if c.supported then updateMapSize prevState c.state else []

/-- `componentWillUnmount()` (static-map.js lines 135-139): calls
`finalize()` once, then nulls `this._mapbox` and `this._map`; a no-op when
unsupported (line 96). -/
def componentWillUnmount (c : Component) : Component × List EngineCall :=
  if c.supported then
    ({ c with mapbox := none, map := none }, [EngineCall.finalize])
  else (c, [])

/-- `getMap` (static-map.js lines 142-144): returns `this._map` as is; no
engine call, no exception. -/
def getMap (c : Component) : Option Unit :=
  c.map

/-- `queryRenderedFeatures(geometry, options)` (static-map.js lines
155-157): dereferences `this._map`; a JS `TypeError` results when the handle
is `null` (after unmount), otherwise the call reaches the engine. -/
def queryRenderedFeatures (c : Component) (geometry : Nat) :
    Except JSError (List EngineCall) :=
  match c.map with
  | none => .error .typeError
  | some _ => .ok [EngineCall.queryRenderedFeatures geometry]

/-- `_onResize({width, height})`, state part (static-map.js line 172):
`setState({width, height})` — React merges partial state, so
`accessTokenInvalid` is preserved. -/
def onResizeState (st : CState) (width height : Int) : CState :=
  { st with width := width, height := height }

/-- An error event from the engine (`evt` in `_mapboxMapError`).
`error = none` models a missing/falsy `evt.error`; `error = some none`
models a present `evt.error` whose `.status` is absent (undefined);
`error = some (some n)` a present numeric `evt.error.status` (`0` being the
falsy number).  `status` is the top-level `evt.status`. -/
structure ErrorEvent where
  error : Option (Option Int)
  status : Option Int
deriving DecidableEq, Repr

/-- The status-code selection `evt.error && evt.error.status || evt.status`
(static-map.js line 199), with JS truthiness: a missing object or a
falsy/missing nested status falls through to the top-level `evt.status`. -/
def effectiveStatus (evt : ErrorEvent) : Option Int :=
  match evt.error with
  | none => evt.status
  | some nested =>
    match nested with
    | some n => if n ≠ 0 then some n else evt.status
    | none => evt.status

/-- `_mapboxMapError(evt)` (static-map.js lines 198-205): on a 401 status
with the flag not yet set, emit one `console.error` line and set
`accessTokenInvalid`; otherwise do nothing.  Returns the new state and the
emitted log lines. -/
def mapboxMapError (st : CState) (evt : ErrorEvent) : CState × List String :=
  if effectiveStatus evt = some UNAUTHORIZED_ERROR_CODE && !st.accessTokenInvalid then
    ({ st with accessTokenInvalid := true }, [NO_TOKEN_WARNING])
  else (st, [])

/-- The state-mutating operations a mounted component can receive within one
mount cycle: an engine error event or a resize report. -/
inductive StateOp where
  | errorEvent (evt : ErrorEvent)
  | resize (width height : Int)
deriving DecidableEq, Repr

/-- Apply one state operation, collecting log lines. -/
def applyOp (st : CState) : StateOp → CState × List String
  | .errorEvent evt => mapboxMapError st evt
  | .resize w h => (onResizeState st w h, [])

/-- Run a sequence of state operations, collecting all log lines. -/
def runOps (st : CState) : List StateOp → CState × List String
  | [] => (st, [])
  | op :: ops =>
    let (st1, logs1) := applyOp st op
    let (st2, logs2) := runOps st1 ops
    (st2, logs1 ++ logs2)

/-- `_renderNoTokenWarning()` (static-map.js lines 207-224): the warning
overlay is produced exactly when the flag is set and the warning is not
disabled. -/
def renderNoTokenWarning (st : CState) (p : Props) : Bool :=
  st.accessTokenInvalid && !p.disableTokenWarning

/-- A child element of the rendered map container (static-map.js lines
244-270). -/
inductive Element where
  /-- The mapping surface `div` (key `map-mapbox`), carrying the computed
  size and visibility style. -/
  | mapSurface (width height : Int) (visibility : String)
  /-- The overlay container `div` (key `map-overlays`) holding the
  caller-supplied children. -/
  | overlays (hasChildren : Bool)
  /-- The `AutoSizer` element (key `autosizer`). -/
  | autoSizer
  /-- The invalid-token warning `div` (key `warning`). -/
  | tokenWarning
deriving DecidableEq, Repr

/-- The view state against which visibility constraints are evaluated when
no `viewState` prop is supplied: the top-level geographic props
(static-map.js line 235, the `this.props` branch of
`this.props.viewState || this.props`). -/
def propsViewState (p : Props) : ViewState :=
  { longitude := p.longitude, latitude := p.latitude, zoom := p.zoom,
    bearing := p.bearing, pitch := p.pitch }

/-- The `visible` computation in `render()` (static-map.js lines 234-235):
`this.props.visible && checkVisibilityConstraints(this.props.viewState ||
this.props, visibilityConstraints)`. -/
def renderVisible (p : Props) : Bool :=
  p.visible &&
    checkVisibilityConstraints (p.viewState.getD (propsViewState p)) p.visibilityConstraints

/-- The rendered output of `render()` (static-map.js lines 226-271): the
container's resolved CSS position and its ordered children. -/
structure RenderOutput where
  containerPosition : String
  children : List Element
deriving DecidableEq, Repr

/-- `render()` (static-map.js lines 226-271).  The map surface is always
present, styled with the state size and a visibility of `visible` or
`hidden`; the overlay container and the auto-sizer always follow; the token
warning is appended when active (`createElement` receives `null` otherwise,
which React drops). -/
def render (c : Component) : RenderOutput :=
  let pos := match c.props.style with
    | none => "relative"
    | some s => if s = "static" then "relative" else s
  let visible := renderVisible c.props
  { containerPosition := pos
    children :=
      [Element.mapSurface c.state.width c.state.height
         (if visible then "visible" else "hidden"),
       Element.overlays c.props.hasChildren,
       Element.autoSizer] ++
      (if renderNoTokenWarning c.state c.props then [Element.tokenWarning] else []) }

/-- The visibility style of the map surface element in a render output. -/
def mapSurfaceVisibility (o : RenderOutput) : Option String :=
  o.children.findSome? fun e =>
    match e with
    | .mapSurface _ _ v => some v
    | _ => none

/-- A concrete prop assignment used by the witness theorems: the default
style url with benign display values. -/
def sampleProps : Props :=
  { mapStyle := .url "mapbox://styles/mapbox/light-v8"
    preventStyleDiffing := false
    disableTokenWarning := false
    visible := true
    width := 100
    height := 100
    longitude := 0
    latitude := 0
    zoom := 10
    bearing := 0
    pitch := 0
    viewState := none
    visibilityConstraints := none
    style := none
    hasChildren := true }

/-- A concrete mounted component in a supported environment, used by the
witness theorems. -/
def sampleComponent : Component :=
  { props := sampleProps
    state := { width := 100, height := 50, accessTokenInvalid := false }
    supported := true
    mapbox := some ()
    map := some () }

/-- Claim C2: once `accessTokenInvalid` is set, any further sequence of
component operations within the mount cycle — engine error events (401 or
otherwise) and resize reports — emits no diagnostic log line and leaves the
flag set: the flag is monotone for the remainder of the mount cycle. -/
theorem accessTokenInvalid_monotone (st : CState) (h : st.accessTokenInvalid = true)
    (ops : List StateOp) :
    (runOps st ops).1.accessTokenInvalid = true ∧ (runOps st ops).2 = [] := by
  revert h
  induction ops generalizing st with
  | nil => intro h; simp [runOps, h]
  | cons op ops ih =>
    intro h
    have hstep : (applyOp st op).1.accessTokenInvalid = true ∧ (applyOp st op).2 = [] := by
      cases op with
      | errorEvent evt => simp [applyOp, mapboxMapError, h]
      | resize w hh => simp [applyOp, onResizeState, h]
    have hrec := ih (applyOp st op).1 hstep.1
    simp [runOps, hstep.2, hrec.1, hrec.2]

/-- Witness for C2: a state with the flag set, followed by a second 401
event and a resize, produces no log line and keeps the flag. -/
theorem accessTokenInvalid_monotone_witness :
    (runOps { width := 0, height := 0, accessTokenInvalid := true }
        [StateOp.errorEvent { error := none, status := some 401 },
         StateOp.resize 5 5]).1.accessTokenInvalid = true ∧
    (runOps { width := 0, height := 0, accessTokenInvalid := true }
        [StateOp.errorEvent { error := none, status := some 401 },
         StateOp.resize 5 5]).2 = [] :=
  accessTokenInvalid_monotone { width := 0, height := 0, accessTokenInvalid := true } rfl
    [StateOp.errorEvent { error := none, status := some 401 }, StateOp.resize 5 5]

/-- Claim C3: a prop update issues a `setStyle` call to the engine exactly
when the new `mapStyle` descriptor differs (under JS `!==`: value equality
for url strings, reference equality for style objects) from the previous
one; an unchanged descriptor issues no style swap. -/
theorem setStyle_iff_style_changed (c : Component) (newProps : Props)
    (h : c.supported = true) :
    (∃ s d, EngineCall.setStyle s d ∈ (componentWillReceiveProps c newProps).2) ↔
      newProps.mapStyle ≠ c.props.mapStyle := by
  by_cases hst : newProps.mapStyle = c.props.mapStyle <;>
    simp [componentWillReceiveProps, h, updateMapStyle, hst]

/-- Witness for C3: updating the sample component with a different style
url issues a style swap. -/
theorem setStyle_iff_style_changed_witness :
    (∃ s d, EngineCall.setStyle s d ∈
      (componentWillReceiveProps sampleComponent
        { sampleProps with mapStyle := .url "mapbox://styles/mapbox/dark-v9" }).2) ↔
      ({ sampleProps with mapStyle := .url "mapbox://styles/mapbox/dark-v9" } : Props).mapStyle ≠
        sampleComponent.props.mapStyle :=
  setStyle_iff_style_changed sampleComponent
    { sampleProps with mapStyle := .url "mapbox://styles/mapbox/dark-v9" } rfl

/-- Claim C4: across a committed update, `resize()` is dispatched to the
engine exactly once when the stored width or height changed, and zero times
when both are unchanged. -/
theorem resize_iff_size_changed (c : Component) (prev : CState) (h : c.supported = true) :
    (componentDidUpdate c prev).count EngineCall.resize =
      if prev.width = c.state.width ∧ prev.height = c.state.height then 0 else 1 := by
  by_cases hw : prev.width = c.state.width <;> by_cases hh : prev.height = c.state.height <;>
    simp [componentDidUpdate, updateMapSize, h, hw, hh]

/-- Witness for C4: the sample component with an unchanged previous state
issues no resize; with a changed width it issues exactly one. -/
theorem resize_iff_size_changed_witness :
    (componentDidUpdate sampleComponent
        { width := 100, height := 50, accessTokenInvalid := false }).count EngineCall.resize =
      if (100 : Int) = sampleComponent.state.width ∧ (50 : Int) = sampleComponent.state.height
      then 0 else 1 :=
  resize_iff_size_changed sampleComponent
    { width := 100, height := 50, accessTokenInvalid := false } rfl

/-- Claim C6: an error event whose effective status is 401 arriving while
the flag is unset emits exactly one diagnostic log line and sets
`accessTokenInvalid`; on the next render the warning overlay is present
exactly when `disableTokenWarning` is not set (the flag is set either
way). -/
theorem first_401_logs_and_warns (c : Component) (evt : ErrorEvent)
    (hs : effectiveStatus evt = some 401)
    (hf : c.state.accessTokenInvalid = false) :
    (mapboxMapError c.state evt).2 = [NO_TOKEN_WARNING] ∧
    (mapboxMapError c.state evt).1.accessTokenInvalid = true ∧
    (Element.tokenWarning ∈
        (render { c with state := (mapboxMapError c.state evt).1 }).children ↔
      c.props.disableTokenWarning = false) := by
  have key : mapboxMapError c.state evt =
      ({ c.state with accessTokenInvalid := true }, [NO_TOKEN_WARNING]) := by
    simp [mapboxMapError, hs, hf, UNAUTHORIZED_ERROR_CODE]
  rw [key]
  refine ⟨rfl, rfl, ?_⟩
  cases hd : c.props.disableTokenWarning <;>
    simp [render, renderNoTokenWarning, hd]

/-- Witness for C6: a 401 event on the freshly mounted sample component
logs once, sets the flag, and makes the overlay visible. -/
theorem first_401_logs_and_warns_witness :
    (mapboxMapError sampleComponent.state { error := none, status := some 401 }).2 =
      [NO_TOKEN_WARNING] ∧
    (mapboxMapError sampleComponent.state
        { error := none, status := some 401 }).1.accessTokenInvalid = true ∧
    (Element.tokenWarning ∈
        (render { sampleComponent with
          state := (mapboxMapError sampleComponent.state
            { error := none, status := some 401 }).1 }).children ↔
      sampleComponent.props.disableTokenWarning = false) :=
  first_401_logs_and_warns sampleComponent { error := none, status := some 401 } rfl rfl

/-- Claim C9: the 401 detection uses `evt.error.status` when `evt.error`
exists and its `status` is truthy, and `evt.status` otherwise: a nested
falsy or missing status with a top-level 401 still triggers the handling,
a truthy non-401 nested status masks a top-level 401, and a missing nested
error falls through to the top-level status. -/
theorem status_code_selection (st : CState) (stat : Option Int) (n : Int)
    (hf : st.accessTokenInvalid = false) :
    (mapboxMapError st { error := some none, status := some 401 }).1.accessTokenInvalid = true ∧
    (mapboxMapError st { error := some (some 0), status := some 401 }).1.accessTokenInvalid
      = true ∧
    (n ≠ 0 → effectiveStatus { error := some (some n), status := stat } = some n) ∧
    (n ≠ 0 → n ≠ 401 →
      mapboxMapError st { error := some (some n), status := some 401 } = (st, [])) ∧
    effectiveStatus { error := none, status := stat } = stat ∧
    effectiveStatus { error := some none, status := stat } = stat ∧
    effectiveStatus { error := some (some 0), status := stat } = stat := by
  refine ⟨?_, ?_, ?_, ?_, ?_, ?_, ?_⟩
  · simp [mapboxMapError, effectiveStatus, hf, UNAUTHORIZED_ERROR_CODE]
  · simp [mapboxMapError, effectiveStatus, hf, UNAUTHORIZED_ERROR_CODE]
  · intro hn; simp [effectiveStatus, hn]
  · intro hn h401
    simp [mapboxMapError, effectiveStatus, hn, h401, UNAUTHORIZED_ERROR_CODE]
  · rfl
  · rfl
  · rfl

/-- Witness for C9: instantiated at a fresh state, top-level status 200 and
nested status 500. -/
theorem status_code_selection_witness :
    (mapboxMapError { width := 0, height := 0, accessTokenInvalid := false }
        { error := some none, status := some 401 }).1.accessTokenInvalid = true ∧
    (mapboxMapError { width := 0, height := 0, accessTokenInvalid := false }
        { error := some (some 0), status := some 401 }).1.accessTokenInvalid = true ∧
    ((500 : Int) ≠ 0 →
      effectiveStatus { error := some (some 500), status := some 200 } = some 500) ∧
    ((500 : Int) ≠ 0 → (500 : Int) ≠ 401 →
      mapboxMapError { width := 0, height := 0, accessTokenInvalid := false }
          { error := some (some 500), status := some 401 } =
        ({ width := 0, height := 0, accessTokenInvalid := false }, [])) ∧
    effectiveStatus { error := none, status := some 200 } = some 200 ∧
    effectiveStatus { error := some none, status := some 200 } = some 200 ∧
    effectiveStatus { error := some (some 0), status := some 200 } = some 200 :=
  status_code_selection { width := 0, height := 0, accessTokenInvalid := false }
    (some 200) 500 rfl

/-- Claim C10: the render-time visibility check evaluates the constraints
against the `viewState` prop when one is supplied — so the top-level
geographic props have no influence then — and against the top-level props
otherwise. -/
theorem visibility_uses_viewState (p : Props) (vs : ViewState) (lon lat z b pi : Int) :
    (p.viewState = some vs →
      renderVisible p = (p.visible && checkVisibilityConstraints vs p.visibilityConstraints) ∧
      renderVisible { p with longitude := lon, latitude := lat, zoom := z,
                             bearing := b, pitch := pi } = renderVisible p) ∧
    (p.viewState = none →
      renderVisible p =
        (p.visible && checkVisibilityConstraints (propsViewState p) p.visibilityConstraints)) := by
  constructor
  · intro h
    constructor <;> simp [renderVisible, h]
  · intro h
    simp [renderVisible, h]

/-- Witness for C10: with a `viewState` prop present the constraints are
checked against it and perturbing the top-level geographic props changes
nothing; without it the top-level props are used. -/
theorem visibility_uses_viewState_witness :
    (renderVisible { sampleProps with
        viewState := some { longitude := 1, latitude := 2, zoom := 3, bearing := 4, pitch := 5 } } =
      (({ sampleProps with
          viewState := some
            { longitude := 1, latitude := 2, zoom := 3, bearing := 4, pitch := 5 } } : Props).visible &&
        checkVisibilityConstraints
          { longitude := 1, latitude := 2, zoom := 3, bearing := 4, pitch := 5 }
          ({ sampleProps with
            viewState := some
              { longitude := 1, latitude := 2, zoom := 3, bearing := 4,
                pitch := 5 } } : Props).visibilityConstraints) ∧
      renderVisible { { sampleProps with
          viewState := some
            { longitude := 1, latitude := 2, zoom := 3, bearing := 4, pitch := 5 } } with
        longitude := 7, latitude := 7, zoom := 7, bearing := 7, pitch := 7 } =
        renderVisible { sampleProps with
          viewState := some
            { longitude := 1, latitude := 2, zoom := 3, bearing := 4, pitch := 5 } }) ∧
    renderVisible sampleProps =
      (sampleProps.visible &&
        checkVisibilityConstraints (propsViewState sampleProps)
          sampleProps.visibilityConstraints) :=
  ⟨(visibility_uses_viewState
      { sampleProps with
        viewState := some { longitude := 1, latitude := 2, zoom := 3, bearing := 4, pitch := 5 } }
      { longitude := 1, latitude := 2, zoom := 3, bearing := 4, pitch := 5 } 7 7 7 7 7).1 rfl,
   (visibility_uses_viewState sampleProps
      { longitude := 1, latitude := 2, zoom := 3, bearing := 4, pitch := 5 } 0 0 0 0 0).2 rfl⟩

/-- Claim C7: the mapping surface element always stays in the rendered
output, styled `hidden` whenever `visible` is false or the visibility
constraints fail for the current view, and `visible` when both hold; the
engine is untouched by rendering — on a mounted component `getMap` and
`queryRenderedFeatures` still operate on the live handle. -/
theorem hidden_render_keeps_engine (c : Component) (g : Nat) (h : c.map = some ()) :
    Element.mapSurface c.state.width c.state.height
        (if renderVisible c.props then "visible" else "hidden") ∈ (render c).children ∧
    ((c.props.visible = false ∨
        checkVisibilityConstraints (c.props.viewState.getD (propsViewState c.props))
          c.props.visibilityConstraints = false) →
      mapSurfaceVisibility (render c) = some "hidden") ∧
    ((c.props.visible = true ∧
        checkVisibilityConstraints (c.props.viewState.getD (propsViewState c.props))
          c.props.visibilityConstraints = true) →
      mapSurfaceVisibility (render c) = some "visible") ∧
    getMap c = some () ∧
    queryRenderedFeatures c g = Except.ok [EngineCall.queryRenderedFeatures g] := by
  refine ⟨?_, ?_, ?_, ?_, ?_⟩
  · simp [render]
  · rintro (hv | hcv)
    · simp [mapSurfaceVisibility, render, List.findSome?, renderVisible, hv]
    · simp [mapSurfaceVisibility, render, List.findSome?, renderVisible, hcv]
  · rintro ⟨hv, hcv⟩
    simp [mapSurfaceVisibility, render, List.findSome?, renderVisible, hv, hcv]
  · simpa [getMap] using h
  · simp [queryRenderedFeatures, h]

/-- Witness for C7: the sample component with `visible := false` renders the
surface hidden while queries still reach the engine. -/
theorem hidden_render_keeps_engine_witness :
    Element.mapSurface
        ({ sampleComponent with
          props := { sampleProps with visible := false } } : Component).state.width
        ({ sampleComponent with
          props := { sampleProps with visible := false } } : Component).state.height
        (if renderVisible ({ sampleComponent with
            props := { sampleProps with visible := false } } : Component).props
         then "visible" else "hidden") ∈
      (render { sampleComponent with
        props := { sampleProps with visible := false } }).children ∧
    ((({ sampleComponent with
          props := { sampleProps with visible := false } } : Component).props.visible = false ∨
        checkVisibilityConstraints
          (({ sampleComponent with
              props := { sampleProps with visible := false } } : Component).props.viewState.getD
            (propsViewState ({ sampleComponent with
              props := { sampleProps with visible := false } } : Component).props))
          ({ sampleComponent with
            props := { sampleProps with
              visible := false } } : Component).props.visibilityConstraints = false) →
      mapSurfaceVisibility
          (render { sampleComponent with
            props := { sampleProps with visible := false } }) = some "hidden") ∧
    ((({ sampleComponent with
          props := { sampleProps with visible := false } } : Component).props.visible = true ∧
        checkVisibilityConstraints
          (({ sampleComponent with
              props := { sampleProps with visible := false } } : Component).props.viewState.getD
            (propsViewState ({ sampleComponent with
              props := { sampleProps with visible := false } } : Component).props))
          ({ sampleComponent with
            props := { sampleProps with
              visible := false } } : Component).props.visibilityConstraints = true) →
      mapSurfaceVisibility
          (render { sampleComponent with
            props := { sampleProps with visible := false } }) = some "visible") ∧
    getMap { sampleComponent with props := { sampleProps with visible := false } } = some () ∧
    queryRenderedFeatures
        { sampleComponent with props := { sampleProps with visible := false } } 3 =
      Except.ok [EngineCall.queryRenderedFeatures 3] :=
  hidden_render_keeps_engine
    { sampleComponent with props := { sampleProps with visible := false } } 3 rfl

/-- Claim C8: a component constructed in an unsupported environment never
constructs an engine and never throws: every lifecycle hook is a no-op for
its whole lifetime, the handles stay null, and render still produces the
container with the caller-supplied overlay children. -/
theorem unsupported_env_noop (p newProps : Props) (prev : CState) :
    componentDidMount (construct false p) = (construct false p, []) ∧
    componentWillReceiveProps (construct false p) newProps =
      ({ construct false p with props := newProps }, []) ∧
    componentDidUpdate (construct false p) prev = [] ∧
    componentWillUnmount (construct false p) = (construct false p, []) ∧
    (construct false p).mapbox = none ∧
    (construct false p).map = none ∧
    Element.overlays p.hasChildren ∈ (render (construct false p)).children := by
  refine ⟨?_, ?_, ?_, ?_, rfl, rfl, ?_⟩ <;>
    simp [construct, componentDidMount, componentWillReceiveProps, componentDidUpdate,
      componentWillUnmount, render, renderNoTokenWarning]

/-- Claim C1 counterexample: after unmounting a mounted component, a
late-arriving `queryRenderedFeatures` call does raise an exception (a JS
`TypeError` from dereferencing the nulled `this._map`), contradicting the
claim that every post-unmount operation raises no exception. -/
theorem late_query_after_unmount_throws :
    queryRenderedFeatures (componentWillUnmount sampleComponent).1 0 =
      Except.error JSError.typeError := by
  rfl

/-- Claim C1 (amended): on unmount `finalize()` is dispatched to the engine
exactly once and both owning handles are nulled immediately; afterwards no
operation reaches the engine — `getMap` returns null without error, while a
late `queryRenderedFeatures` raises a TypeError on the nulled handle
(still issuing no engine call). -/
theorem unmount_finalizes_once (c : Component) (g : Nat) (h : c.supported = true) :
    (componentWillUnmount c).2 = [EngineCall.finalize] ∧
    (componentWillUnmount c).1.mapbox = none ∧
    (componentWillUnmount c).1.map = none ∧
    getMap (componentWillUnmount c).1 = none ∧
    queryRenderedFeatures (componentWillUnmount c).1 g = Except.error JSError.typeError := by
  simp [componentWillUnmount, h, getMap, queryRenderedFeatures]

/-- Witness for the amended C1: unmounting the sample component. -/
theorem unmount_finalizes_once_witness :
    (componentWillUnmount sampleComponent).2 = [EngineCall.finalize] ∧
    (componentWillUnmount sampleComponent).1.mapbox = none ∧
    (componentWillUnmount sampleComponent).1.map = none ∧
    getMap (componentWillUnmount sampleComponent).1 = none ∧
    queryRenderedFeatures (componentWillUnmount sampleComponent).1 7 =
      Except.error JSError.typeError :=
  unmount_finalizes_once sampleComponent 7 rfl

/-- Claim C5 counterexample: when `preventStyleDiffing` changes from false
to true in the same update as the style, the `setStyle` call carries
`diff = true`, while the claim requires the negation of the new flag,
`false`: the code reads `this.props.preventStyleDiffing`, still the old
props during `componentWillReceiveProps`. -/
theorem diff_flag_uses_old_props_counterexample :
    (componentWillReceiveProps
        { sampleComponent with
          props := { sampleProps with mapStyle := .url "a", preventStyleDiffing := false } }
        { sampleProps with mapStyle := .url "b", preventStyleDiffing := true }).2 =
      [EngineCall.setProps, EngineCall.setStyle (MapStyle.url "b") true] ∧
    (!({ sampleProps with mapStyle := .url "b", preventStyleDiffing := true } : Props).preventStyleDiffing) = false := by
  exact ⟨rfl, rfl⟩

/-- Claim C5 (amended): every style swap issued by a prop update carries
`diff` equal to the negation of the `preventStyleDiffing` value of the props
in effect before the update (`this.props` at `componentWillReceiveProps`
time); when the flag changes in the same update as the style, the previous
value governs. -/
theorem style_diff_uses_old_flag (c : Component) (newProps : Props)
    (h : c.supported = true) (hs : newProps.mapStyle ≠ c.props.mapStyle) :
    (componentWillReceiveProps c newProps).2 =
      [EngineCall.setProps,
       EngineCall.setStyle (normalizeStyle newProps.mapStyle)
         (!c.props.preventStyleDiffing)] := by
  simp [componentWillReceiveProps, h, updateMapStyle, hs]

/-- Witness for the amended C5: a style change on the sample component
issues a swap whose diff flag negates the pre-update `preventStyleDiffing`. -/
theorem style_diff_uses_old_flag_witness :
    (componentWillReceiveProps sampleComponent
        { sampleProps with mapStyle := .url "c", preventStyleDiffing := true }).2 =
      [EngineCall.setProps,
       EngineCall.setStyle
         (normalizeStyle ({ sampleProps with mapStyle := .url "c", preventStyleDiffing := true } : Props).mapStyle)
         (!sampleComponent.props.preventStyleDiffing)] :=
  style_diff_uses_old_flag sampleComponent
    { sampleProps with mapStyle := .url "c", preventStyleDiffing := true } rfl
    (by decide)

end RMG
